import Mathlib

/-!
Verification of the inventory-service core
(`src/logi-core/services/inventory-service/main.py`): a shallow embedding
of the stock-movement ledger and level-mutation engine, and proofs about
its behaviour.   The Python handlers are translated function-for-function:
Python `int` becomes `Int`, `Optional[T]` becomes `Option T`, the global
lists `INVENTORY_LEVELS` and `STOCK_MOVEMENTS` become the fields of
`SysState`, and each `uuid4()` call site becomes an explicit fresh-string
parameter.
-/

namespace InventoryService

/-- The `movementType` Literal of `StockMovement`:
`'inbound','outbound','transfer','adjustment','return'`. -/
inductive MovementType
  | inbound
  | outbound
  | transfer
  | adjustment
  | return_
  deriving DecidableEq

/-- The `referenceType` Literal: `'order','transfer','adjustment','return'`. -/
inductive ReferenceType
  | order
  | transfer
  | adjustment
  | return_
  deriving DecidableEq

/-- `class InventoryLevel(BaseModel)` (main.py lines 52-60). -/
structure InventoryLevel where
  id : String
  itemId : String
  warehouseId : String
  quantity : Int
  reservedQuantity : Int := 0
  reorderPoint : Option Int := none
  reorderQuantity : Option Int := none
  locationCode : Option String := none
  deriving DecidableEq

/-- `class StockMovement(BaseModel)` (main.py lines 66-76). -/
structure StockMovement where
  id : Option String := none
  itemId : String
  warehouseId : String
  movementType : MovementType
  quantity : Int
  referenceType : Option ReferenceType := none
  referenceId : Option String := none
  fromLocation : Option String := none
  toLocation : Option String := none
  notes : Option String := none
  deriving DecidableEq

/-- The process-wide mutable state: `INVENTORY_LEVELS` and `STOCK_MOVEMENTS`
(main.py lines 82-83). -/
structure SysState where
  inventory_levels : List InventoryLevel
  stock_movements : List StockMovement
  deriving DecidableEq

/-- Both global lists start empty. -/
def emptyState : SysState := { inventory_levels := [], stock_movements := [] }

/-- Python truthiness test on an `Optional[str]` value, as used by
`if not m.id:` (line 169) and `if warehouseId:` (lines 153, 160):
`None` and the empty string are falsy, every other string is truthy. -/
def strOptFalsy : Option String → Bool
  | none => true
  | some s => s == ""

/-- Python `(x or 0)` on an `Optional[int]` as in line 163:
`None` and `0` are falsy and give `0`; any other value is returned. -/
def pyIntOrZero : Option Int → Int
  | none => 0
  | some v => if v == 0 then 0 else v

/-- The level-lookup predicate from line 173:
`l.itemId == m.itemId and l.warehouseId == m.warehouseId`. -/
def keyMatch (m : StockMovement) (l : InventoryLevel) : Bool :=
  l.itemId == m.itemId && l.warehouseId == m.warehouseId

/-- The `(itemId, warehouseId)` key of a level. -/
def keyOf (l : InventoryLevel) : String × String := (l.itemId, l.warehouseId)

/-- Line 184:
`adj = m.quantity if m.movementType in ("inbound", "return") else -m.quantity`. -/
def adjOf (m : StockMovement) : Int :=
  match m.movementType with
  | .inbound => m.quantity
  | .return_ => m.quantity
  | _ => -m.quantity

/-- Lines 168-170: `if not m.id: m.id = str(uuid4())`, with the
`uuid4()` result passed in as `midFresh`. -/
def resolveId (midFresh : String) (m : StockMovement) : StockMovement :=
  if strOptFalsy m.id then { m with id := some midFresh } else m

/-- Line 185 applied to a level object:
`level.quantity = max(0, level.quantity + adj)`. -/
def applyDelta (adj : Int) (l : InventoryLevel) : InventoryLevel :=
  { l with quantity := max 0 (l.quantity + adj) }

/-- Lines 175-181: the lazily materialized level
`InventoryLevel(id=str(uuid4()), itemId=m.itemId, warehouseId=m.warehouseId,
quantity=0, reservedQuantity=0)`, with the `uuid4()` result passed in as
`lidFresh`. -/
def freshLevel (lidFresh : String) (m : StockMovement) : InventoryLevel :=
  { id := lidFresh, itemId := m.itemId, warehouseId := m.warehouseId,
    quantity := 0, reservedQuantity := 0 }

/-- In-place mutation of the first element satisfying `p` in a Python list:
the object found by `next((l for l in LIST if p l), None)` is mutated where
it sits, every other element is untouched. -/
def updateFirst (p : α → Bool) (f : α → α) : List α → List α
  | [] => []
  | x :: xs => if p x then f x :: xs else x :: updateFirst p f xs

/-- `GET /inventory/levels` (main.py lines 150-155), as a function of the
query parameter and the `INVENTORY_LEVELS` global. -/
def get_inventory_levels (warehouseId : Option String) (levels : List InventoryLevel) :
    List InventoryLevel :=
  match warehouseId with
  | none => levels
  | some w => if w == "" then levels else levels.filter (fun l => l.warehouseId == w)

/-- `GET /inventory/low-stock` (main.py lines 157-163).  The warehouse filter
is repeated verbatim from `get_inventory_levels`, as in the source; the
low-stock filter is line 163:
`l.reorderPoint is not None and l.quantity <= (l.reorderPoint or 0)`. -/
def get_low_stock (warehouseId : Option String) (levels0 : List InventoryLevel) :
    List InventoryLevel :=
  let levels :=
    match warehouseId with
    | none => levels0
    | some w => if w == "" then levels0 else levels0.filter (fun l => l.warehouseId == w)
  levels.filter (fun l => l.reorderPoint.isSome && decide (l.quantity ≤ pyIntOrZero l.reorderPoint))

/-- `POST /inventory/movements` = `record_stock_movement` (main.py lines
166-188).  The two `uuid4()` call sites are the parameters `midFresh`
(movement id, line 170) and `lidFresh` (level id, line 176).  Returns the
response body together with the post-call global state.  The handler
performs no validation: every request that parses is processed. -/
def record_stock_movement (midFresh lidFresh : String) (m0 : StockMovement)
    (s : SysState) : StockMovement × SysState :=
  match s.inventory_levels.find? (keyMatch (resolveId midFresh m0)) with
  | none =>
      (resolveId midFresh m0,
       { inventory_levels :=
           s.inventory_levels ++
             [applyDelta (adjOf (resolveId midFresh m0)) (freshLevel lidFresh (resolveId midFresh m0))],
         stock_movements := s.stock_movements ++ [resolveId midFresh m0] })
  | some _ =>
      (resolveId midFresh m0,
       { inventory_levels :=
           updateFirst (keyMatch (resolveId midFresh m0))
             (applyDelta (adjOf (resolveId midFresh m0))) s.inventory_levels,
         stock_movements := s.stock_movements ++ [resolveId midFresh m0] })

/-- `GET /inventory/levels` as a state transformer: the handler reads the
`INVENTORY_LEVELS` global and assigns to no global, so the post-call state
is the pre-call state. -/
def get_inventory_levels_route (warehouseId : Option String) (s : SysState) :
    List InventoryLevel × SysState :=
  (get_inventory_levels warehouseId s.inventory_levels, s)

/-- The states reachable from empty globals by any sequence of
`record_stock_movement` calls (with arbitrary fresh ids). -/
inductive Reachable : SysState → Prop
  | empty : Reachable emptyState
  | step (midFresh lidFresh : String) (m : StockMovement) (s : SysState) :
      Reachable s → Reachable (record_stock_movement midFresh lidFresh m s).2

/-! Concrete states used by witnesses: the §8 test scenario
(inbound 10, then outbound 4, then adjustment 100 on one key). -/

def mvInbound10 : StockMovement :=
  { itemId := "item-1", warehouseId := "wh-1", movementType := .inbound, quantity := 10 }

def mvOutbound4 : StockMovement :=
  { itemId := "item-1", warehouseId := "wh-1", movementType := .outbound, quantity := 4 }

def mvAdjust100 : StockMovement :=
  { itemId := "item-1", warehouseId := "wh-1", movementType := .adjustment, quantity := 100 }

def mvZero : StockMovement :=
  { itemId := "item-1", warehouseId := "wh-1", movementType := .outbound, quantity := 0 }

def s1 : SysState := (record_stock_movement "m1" "l1" mvInbound10 emptyState).2

def s2 : SysState := (record_stock_movement "m2" "l2" mvOutbound4 s1).2

def s3 : SysState := (record_stock_movement "m3" "l3" mvAdjust100 s2).2

/-- The single level present in `s1`. -/
def lvl1 : InventoryLevel :=
  { id := "l1", itemId := "item-1", warehouseId := "wh-1", quantity := 10, reservedQuantity := 0 }

example : s1.inventory_levels = [lvl1] := by decide
example : (s2.inventory_levels.map (fun l => l.quantity)) = [6] := by decide
example : (s3.inventory_levels.map (fun l => l.quantity)) = [0] := by decide

/-! Helper lemmas. -/

theorem resolveId_spec (midFresh : String) (m : StockMovement) :
    resolveId midFresh m = if strOptFalsy m.id then { m with id := some midFresh } else m := rfl

theorem keyMatch_resolveId (midFresh : String) (m : StockMovement) :
    keyMatch (resolveId midFresh m) = keyMatch m := by
  funext l
  unfold resolveId
  split <;> rfl

theorem adjOf_resolveId (midFresh : String) (m : StockMovement) :
    adjOf (resolveId midFresh m) = adjOf m := by
  unfold resolveId
  split <;> rfl

theorem keyMatch_applyDelta (m : StockMovement) (adj : Int) (l : InventoryLevel) :
    keyMatch m (applyDelta adj l) = keyMatch m l := rfl

theorem keyOf_applyDelta (adj : Int) (l : InventoryLevel) :
    keyOf (applyDelta adj l) = keyOf l := rfl

theorem length_updateFirst (p : α → Bool) (f : α → α) (xs : List α) :
    (updateFirst p f xs).length = xs.length := by
  induction xs with
  | nil => rfl
  | cons x xs ih =>
      unfold updateFirst
      split
      · simp
      · simp [ih]

theorem mem_updateFirst (p : α → Bool) (f : α → α) (xs : List α) (y : α)
    (hy : y ∈ updateFirst p f xs) : y ∈ xs ∨ ∃ x, x ∈ xs ∧ p x = true ∧ y = f x := by
  induction xs with
  | nil => simp [updateFirst] at hy
  | cons x xs ih =>
      unfold updateFirst at hy
      split at hy
      · rcases List.mem_cons.mp hy with rfl | hmem
        · exact Or.inr ⟨x, List.mem_cons_self x xs, by assumption, rfl⟩
        · exact Or.inl (List.mem_cons_of_mem x hmem)
      · rcases List.mem_cons.mp hy with rfl | hmem
        · exact Or.inl (List.mem_cons_self y xs)
        · rcases ih hmem with h | ⟨z, hz, hpz, rfl⟩
          · exact Or.inl (List.mem_cons_of_mem x h)
          · exact Or.inr ⟨z, List.mem_cons_of_mem x hz, hpz, rfl⟩

theorem mem_updateFirst_of_no_match (p : α → Bool) (f : α → α) (xs : List α) (y : α)
    (hy : y ∈ xs) (hp : p y = false) : y ∈ updateFirst p f xs := by
  induction xs with
  | nil => cases hy
  | cons x xs ih =>
      unfold updateFirst
      rcases List.mem_cons.mp hy with rfl | hmem
      · split
        · simp_all
        · exact List.mem_cons_self y _
      · split
        · exact List.mem_cons_of_mem _ hmem
        · exact List.mem_cons_of_mem x (ih hmem)

theorem mem_of_mem_updateFirst (p : α → Bool) (f : α → α)
    (hf : ∀ a, p (f a) = p a) (xs : List α) (y : α)
    (hy : y ∈ updateFirst p f xs) (hp : p y = false) : y ∈ xs := by
  rcases mem_updateFirst p f xs y hy with h | ⟨x, hx, hpx, rfl⟩
  · exact h
  · rw [hf x, hpx] at hp
    cases hp

theorem find?_updateFirst (p : α → Bool) (f : α → α)
    (hf : ∀ a, p (f a) = p a) (xs : List α) :
    (updateFirst p f xs).find? p = (xs.find? p).map f := by
  induction xs with
  | nil => rfl
  | cons x xs ih =>
      unfold updateFirst
      by_cases hx : p x = true
      · rw [if_pos hx, List.find?_cons_of_pos _ ((hf x).trans hx),
          List.find?_cons_of_pos _ hx]
        rfl
      · rw [if_neg hx, List.find?_cons_of_neg _ hx, List.find?_cons_of_neg _ hx, ih]

theorem map_updateFirst (p : α → Bool) (f : α → α) (g : α → β)
    (hg : ∀ a, g (f a) = g a) (xs : List α) :
    (updateFirst p f xs).map g = xs.map g := by
  induction xs with
  | nil => rfl
  | cons x xs ih =>
      unfold updateFirst
      split
      · simp [hg]
      · simp [ih]

theorem freshLevel_resolveId (mid lid : String) (m : StockMovement) :
    freshLevel lid (resolveId mid m) = freshLevel lid m := by
  unfold resolveId
  split <;> rfl

/-- The response body is always the request with its id resolved. -/
theorem record_fst (mid lid : String) (m : StockMovement) (s : SysState) :
    (record_stock_movement mid lid m s).1 = resolveId mid m := by
  unfold record_stock_movement
  split <;> rfl

/-- Both branches of the handler append the resolved movement to the ledger. -/
theorem record_ledger (mid lid : String) (m : StockMovement) (s : SysState) :
    (record_stock_movement mid lid m s).2.stock_movements =
      s.stock_movements ++ [resolveId mid m] := by
  unfold record_stock_movement
  split <;> rfl

/-- The store after a movement whose key has no level: the fresh level is
appended and the delta applied to it. -/
theorem record_levels_absent (mid lid : String) (m : StockMovement) (s : SysState)
    (h : s.inventory_levels.find? (keyMatch m) = none) :
    (record_stock_movement mid lid m s).2.inventory_levels =
      s.inventory_levels ++ [applyDelta (adjOf m) (freshLevel lid m)] := by
  unfold record_stock_movement
  rw [keyMatch_resolveId, adjOf_resolveId, freshLevel_resolveId, h]

/-- The store after a movement whose key already has a level: the first
matching level gets the delta, in place. -/
theorem record_levels_present (mid lid : String) (m : StockMovement) (s : SysState)
    (l : InventoryLevel) (h : s.inventory_levels.find? (keyMatch m) = some l) :
    (record_stock_movement mid lid m s).2.inventory_levels =
      updateFirst (keyMatch m) (applyDelta (adjOf m)) s.inventory_levels := by
  unfold record_stock_movement
  rw [keyMatch_resolveId, adjOf_resolveId, h]

/-- The committed quantity of the movement's target level, uniformly over
both branches: max 0 (previous quantity + delta), the previous quantity of
an absent level being 0. -/
theorem record_target_quantity (mid lid : String) (m : StockMovement) (s : SysState) :
    ((record_stock_movement mid lid m s).2.inventory_levels.find? (keyMatch m)).map
        (fun l => l.quantity) =
      some (max 0 (((s.inventory_levels.find? (keyMatch m)).map
        (fun l => l.quantity)).getD 0 + adjOf m)) := by
  cases hf : s.inventory_levels.find? (keyMatch m) with
  | none =>
      rw [record_levels_absent mid lid m s hf, List.find?_append, hf]
      have hk : keyMatch m (applyDelta (adjOf m) (freshLevel lid m)) = true := by
        simp [keyMatch, freshLevel, applyDelta]
      rw [List.find?_cons_of_pos _ hk]
      rfl
  | some l =>
      rw [record_levels_present mid lid m s l hf,
        find?_updateFirst (keyMatch m) _ (fun a => keyMatch_applyDelta m _ a), hf]
      rfl

/-- The low-stock filter condition of line 163, as a proposition. -/
theorem lowStockCond_iff (l : InventoryLevel) :
    (l.reorderPoint.isSome && decide (l.quantity ≤ pyIntOrZero l.reorderPoint)) = true ↔
      ∃ rp, l.reorderPoint = some rp ∧ l.quantity ≤ rp := by
  cases h : l.reorderPoint with
  | none => simp [h, pyIntOrZero]
  | some v =>
      have hv : pyIntOrZero (some v) = v := by
        unfold pyIntOrZero
        split <;> simp_all
      simp [h, hv]

/-- Levels used by the boundary facts of C6. -/
def lvlQ5R10 : InventoryLevel :=
  { id := "a", itemId := "i1", warehouseId := "w1", quantity := 5, reorderPoint := some 10 }

def lvlNoRp : InventoryLevel :=
  { id := "b", itemId := "i2", warehouseId := "w1", quantity := 0, reorderPoint := none }

def lvlQ10R10 : InventoryLevel :=
  { id := "c", itemId := "i3", warehouseId := "w1", quantity := 10, reorderPoint := some 10 }

/-- Movement whose supplied id is the empty string, for C7. -/
def mvEmptyId : StockMovement :=
  { id := some "", itemId := "item-1", warehouseId := "wh-1",
    movementType := .inbound, quantity := 1 }

/-! Claim theorems. -/

/-- C1 counterexample: a movement of quantity 0 submitted to
`record_stock_movement` is not rejected and does change state — the Ledger
gains an entry and the Level Store gains a level — refuting the claim that
such a request fails with InvalidMovement and leaves the Level Store and
the Ledger exactly as they were. -/
theorem zero_quantity_movement_changes_state :
    mvZero.quantity ≤ 0 ∧
    (record_stock_movement "m0" "l0" mvZero emptyState).2.stock_movements ≠
      emptyState.stock_movements ∧
    (record_stock_movement "m0" "l0" mvZero emptyState).2.inventory_levels ≠
      emptyState.inventory_levels := by
  decide

/-- C1 (amended): the handler performs no quantity validation: a movement
whose quantity is zero or negative is accepted like any other — it is
appended to the Ledger (and the clamped delta applied to its target level);
no InvalidMovement rejection path exists in `record_stock_movement`. -/
theorem zero_or_negative_quantity_accepted (mid lid : String) (m : StockMovement)
    (s : SysState) (_hq : m.quantity ≤ 0) :
    (record_stock_movement mid lid m s).2.stock_movements =
      s.stock_movements ++ [(record_stock_movement mid lid m s).1] ∧
    ((record_stock_movement mid lid m s).2.inventory_levels.find? (keyMatch m)).map
        (fun l => l.quantity) =
      some (max 0 (((s.inventory_levels.find? (keyMatch m)).map
        (fun l => l.quantity)).getD 0 + adjOf m)) := by
  rw [record_fst, record_ledger]
  exact ⟨rfl, record_target_quantity mid lid m s⟩

/-- Witness for C1's amended theorem at a concrete quantity-0 movement. -/
theorem zero_or_negative_quantity_accepted_witness :
    (record_stock_movement "m0" "l0" mvZero emptyState).2.stock_movements =
      emptyState.stock_movements ++ [(record_stock_movement "m0" "l0" mvZero emptyState).1] ∧
    ((record_stock_movement "m0" "l0" mvZero emptyState).2.inventory_levels.find?
        (keyMatch mvZero)).map (fun l => l.quantity) =
      some (max 0 (((emptyState.inventory_levels.find? (keyMatch mvZero)).map
        (fun l => l.quantity)).getD 0 + adjOf mvZero)) :=
  zero_or_negative_quantity_accepted "m0" "l0" mvZero emptyState (by decide)

/-- C2: the delta applied to the target level is determined solely by the
movement type — `+quantity` for inbound and return, `-quantity` for
outbound, transfer and adjustment — the committed quantity being
max 0 (previous + delta); and the §8 scenario holds: from empty, inbound 10
gives quantity 10, then outbound 4 gives 6, then adjustment 100 clamps
to 0. -/
theorem delta_determined_by_movement_type :
    (∀ m : StockMovement,
        adjOf m = if m.movementType = .inbound ∨ m.movementType = .return_
          then m.quantity else -m.quantity) ∧
    (∀ (mid lid : String) (m : StockMovement) (s : SysState),
        ((record_stock_movement mid lid m s).2.inventory_levels.find? (keyMatch m)).map
            (fun l => l.quantity) =
          some (max 0 (((s.inventory_levels.find? (keyMatch m)).map
            (fun l => l.quantity)).getD 0 + adjOf m))) ∧
    s1.inventory_levels.map (fun l => l.quantity) = [10] ∧
    s2.inventory_levels.map (fun l => l.quantity) = [6] ∧
    s3.inventory_levels.map (fun l => l.quantity) = [0] := by
  refine ⟨?_, record_target_quantity, by decide, by decide, by decide⟩
  intro m
  unfold adjOf
  cases m.movementType <;> simp

/-- C3: in every state reachable from empty globals by any sequence of
movements, every level's quantity is nonnegative — the committed quantity
is clamped with max 0, and freshly created levels start at 0. -/
theorem quantity_never_negative (s : SysState) (hs : Reachable s) :
    ∀ l, l ∈ s.inventory_levels → 0 ≤ l.quantity := by
  induction hs with
  | empty => intro l hl; cases hl
  | step mid lid m s0 hs ih =>
      intro l hl
      cases hf : s0.inventory_levels.find? (keyMatch m) with
      | none =>
          rw [record_levels_absent mid lid m s0 hf] at hl
          rcases List.mem_append.mp hl with h | h
          · exact ih l h
          · rw [List.mem_singleton] at h
            subst h
            exact le_max_left 0 _
      | some l0 =>
          rw [record_levels_present mid lid m s0 l0 hf] at hl
          rcases mem_updateFirst _ _ _ _ hl with h | ⟨x, hx, hpx, rfl⟩
          · exact ih l h
          · exact le_max_left 0 _

/-- Witness for C3 at the concrete reachable state `s1`. -/
theorem quantity_never_negative_witness : 0 ≤ lvl1.quantity :=
  quantity_never_negative s1
    (Reachable.step "m1" "l1" mvInbound10 emptyState Reachable.empty) lvl1 (by decide)

/-- C4: a movement against a key with no existing level — the warehouseId
being any opaque string, with no check against the warehouse registry —
appends exactly one fresh level carrying the supplied fresh identity, the
request's keys, reservedQuantity 0 and quantity 0, registered in the store
with the delta then applied to it (final quantity max 0 (0 + delta)). -/
theorem lazy_level_materialization (mid lid : String) (m : StockMovement) (s : SysState)
    (h : s.inventory_levels.find? (keyMatch m) = none) :
    (record_stock_movement mid lid m s).2.inventory_levels =
      s.inventory_levels ++
        [{ id := lid, itemId := m.itemId, warehouseId := m.warehouseId,
           quantity := max 0 (0 + adjOf m), reservedQuantity := 0,
           reorderPoint := none, reorderQuantity := none, locationCode := none }] := by
  rw [record_levels_absent mid lid m s h]
  rfl

/-- Witness for C4: the first movement of the scenario creates the level. -/
theorem lazy_level_materialization_witness :
    (record_stock_movement "m1" "l1" mvInbound10 emptyState).2.inventory_levels =
      emptyState.inventory_levels ++
        [{ id := "l1", itemId := mvInbound10.itemId, warehouseId := mvInbound10.warehouseId,
           quantity := max 0 (0 + adjOf mvInbound10), reservedQuantity := 0,
           reorderPoint := none, reorderQuantity := none, locationCode := none }] :=
  lazy_level_materialization "m1" "l1" mvInbound10 emptyState rfl

/-- C5: in every state reachable from empty globals, the Level Store holds
at most one level per (itemId, warehouseId) pair: the list of keys is
duplicate-free.  A level is created only when the lookup finds none, and
mutation preserves keys. -/
theorem at_most_one_level_per_key (s : SysState) (hs : Reachable s) :
    (s.inventory_levels.map keyOf).Nodup := by
  induction hs with
  | empty => simp [emptyState]
  | step mid lid m s0 hs ih =>
      cases hf : s0.inventory_levels.find? (keyMatch m) with
      | none =>
          rw [record_levels_absent mid lid m s0 hf, List.map_append, List.nodup_append]
          refine ⟨ih, by simp, ?_⟩
          intro a ha hb
          have hb' : a = keyOf (applyDelta (adjOf m) (freshLevel lid m)) := by
            simpa using hb
          rcases List.mem_map.mp ha with ⟨x, hx, hxa⟩
          have hnone := List.find?_eq_none.mp hf x hx
          have hkx : keyOf x = (m.itemId, m.warehouseId) := by
            rw [hxa, hb']
            rfl
          have h1 : x.itemId = m.itemId := congrArg Prod.fst hkx
          have h2 : x.warehouseId = m.warehouseId := congrArg Prod.snd hkx
          exact hnone (by simp [keyMatch, h1, h2])
      | some l0 =>
          rw [record_levels_present mid lid m s0 l0 hf,
            map_updateFirst (keyMatch m) _ keyOf (fun a => keyOf_applyDelta _ a)]
          exact ih

/-- Witness for C5 at the concrete reachable state `s2`. -/
theorem at_most_one_level_per_key_witness : (s2.inventory_levels.map keyOf).Nodup :=
  at_most_one_level_per_key s2
    (Reachable.step "m2" "l2" mvOutbound4 s1
      (Reachable.step "m1" "l1" mvInbound10 emptyState Reachable.empty))

/-- C6: `get_low_stock` returns exactly the warehouse-filtered levels whose
reorderPoint is set and whose quantity is at most that reorder point; in
particular quantity 5 with reorder point 10 is returned, a level with no
reorder point is never returned regardless of quantity, and quantity equal
to the reorder point is returned (boundary inclusive). -/
theorem low_stock_at_or_below_reorder_point :
    (∀ (wf : Option String) (levels : List InventoryLevel) (l : InventoryLevel),
        l ∈ get_low_stock wf levels ↔
          l ∈ get_inventory_levels wf levels ∧
            ∃ rp, l.reorderPoint = some rp ∧ l.quantity ≤ rp) ∧
    lvlQ5R10 ∈ get_low_stock none [lvlQ5R10, lvlNoRp, lvlQ10R10] ∧
    lvlNoRp ∉ get_low_stock none [lvlQ5R10, lvlNoRp, lvlQ10R10] ∧
    lvlQ10R10 ∈ get_low_stock none [lvlQ5R10, lvlNoRp, lvlQ10R10] := by
  refine ⟨?_, by decide, by decide, by decide⟩
  intro wf levels l
  unfold get_low_stock get_inventory_levels
  rw [List.mem_filter, lowStockCond_iff]

/-- C7 counterexample: a movement submitted with an id — the empty string —
does not keep it: `if not m.id` treats `""` as missing and the committed
movement carries the fresh id instead, refuting "a fresh identity is
assigned if and only if none was supplied (a supplied id is preserved)". -/
theorem supplied_empty_id_not_preserved :
    mvEmptyId.id = some "" ∧
    (record_stock_movement "fresh-id" "lid" mvEmptyId emptyState).1.id ≠ mvEmptyId.id := by
  decide

/-- C7 (amended): `record_stock_movement` assigns the fresh identity exactly
when the supplied id is absent or the empty string (any other supplied id
is preserved), appends exactly one entry to the Ledger, and returns a
movement identical to that appended entry — the request with only its id
resolved. -/
theorem movement_commit_and_id_resolution (mid lid : String) (m : StockMovement)
    (s : SysState) :
    (record_stock_movement mid lid m s).2.stock_movements =
      s.stock_movements ++ [(record_stock_movement mid lid m s).1] ∧
    (record_stock_movement mid lid m s).1.id =
      (match m.id with
       | none => some mid
       | some x => if x = "" then some mid else some x) ∧
    (record_stock_movement mid lid m s).1 =
      { m with id := (record_stock_movement mid lid m s).1.id } := by
  rw [record_fst, record_ledger]
  refine ⟨rfl, ?_, ?_⟩
  · cases h : m.id with
    | none => simp [resolveId, strOptFalsy, h]
    | some x =>
        by_cases hx : x = ""
        · simp [resolveId, strOptFalsy, h, hx]
        · simp [resolveId, strOptFalsy, h, hx]
  · cases h : m.id with
    | none => simp [resolveId, strOptFalsy, h]
    | some x =>
        by_cases hx : x = ""
        · simp [resolveId, strOptFalsy, h, hx]
        · simp [resolveId, strOptFalsy, h, hx]
          rw [← h]

/-- C8: the levels-listing endpoint is a pure read: it leaves the state
(Level Store and Ledger) unchanged, and two consecutive calls with the same
argument and no intervening movement return identical results. -/
theorem query_levels_pure_read (wf : Option String) (s : SysState) :
    (get_inventory_levels_route wf s).2 = s ∧
    (get_inventory_levels_route wf ((get_inventory_levels_route wf s).2)).1 =
      (get_inventory_levels_route wf s).1 :=
  ⟨rfl, rfl⟩

/-- C9: a movement whose target level exists changes only that level's
quantity: the store keeps its length, the target keeps every field but
quantity, and every level with a different key is preserved exactly, in
both directions. -/
theorem movement_frame_condition (mid lid : String) (m : StockMovement) (s : SysState)
    (l : InventoryLevel) (hfind : s.inventory_levels.find? (keyMatch m) = some l) :
    (record_stock_movement mid lid m s).2.inventory_levels.length =
        s.inventory_levels.length ∧
    (record_stock_movement mid lid m s).2.inventory_levels.find? (keyMatch m) =
        some { l with quantity := max 0 (l.quantity + adjOf m) } ∧
    (∀ x, x ∈ s.inventory_levels → keyMatch m x = false →
        x ∈ (record_stock_movement mid lid m s).2.inventory_levels) ∧
    (∀ x, x ∈ (record_stock_movement mid lid m s).2.inventory_levels →
        keyMatch m x = false → x ∈ s.inventory_levels) := by
  rw [record_levels_present mid lid m s l hfind]
  refine ⟨length_updateFirst _ _ _, ?_, ?_, ?_⟩
  · rw [find?_updateFirst (keyMatch m) _ (fun a => keyMatch_applyDelta m _ a), hfind]
    rfl
  · intro x hx hpx
    exact mem_updateFirst_of_no_match _ _ _ _ hx hpx
  · intro x hx hpx
    exact mem_of_mem_updateFirst _ _ (fun a => keyMatch_applyDelta m _ a) _ _ hx hpx

/-- Witness for C9: the outbound movement of the scenario touches only the
quantity of the level created by the inbound movement. -/
theorem movement_frame_condition_witness :
    s2.inventory_levels.length = s1.inventory_levels.length ∧
    s2.inventory_levels.find? (keyMatch mvOutbound4) =
      some { lvl1 with quantity := max 0 (lvl1.quantity + adjOf mvOutbound4) } := by
  have h := movement_frame_condition "m2" "l2" mvOutbound4 s1 lvl1 (by decide)
  exact ⟨h.1, h.2.1⟩

/-- C10: passing the empty string as the warehouseId query parameter behaves
exactly like passing no parameter, for both the levels listing and the
low-stock listing — Python `if warehouseId:` treats `""` as absent, so the
filter applies only to a non-empty string. -/
theorem empty_string_filter_is_no_filter (levels : List InventoryLevel) :
    get_inventory_levels (some "") levels = get_inventory_levels none levels ∧
    get_low_stock (some "") levels = get_low_stock none levels :=
  ⟨rfl, rfl⟩

end InventoryService
